import Mathlib

/-!
Shallow embedding of the client-side CRUD controller of the
fastapi-react-full-stack repository.

The embedded code:
* `frontend/src/App.tsx` — the web controller (`loadUsers`, `handleCreate`,
  `handleUpdate`, `handleDelete`, `startEdit`, `cancelEdit`) and the web
  API client `frontend/src/api/users.ts` (`getUsers`, `createUser`,
  `updateUser`, `deleteUser`);
* `mobile/app/index.tsx` — the mobile controller (same operation names)
  and the mobile API client `mobile/src/api/users.ts`.

Each React handler is modelled as a pure function from the component state
and the outcomes the API calls would return to the list of primitive
effects the handler executes in order (`setUsers`, `setFormData`,
`setEditingId`, `setLoading`, `setError`, a network request, or a native
alert).  Running the effect list over a state with `runEffs` yields the
state after the handler completes; filtering it yields the network
requests issued and whether the busy flag was ever set.

The API clients are modelled at the HTTP level: each operation is a
function from the response (`ok` status plus a JSON body parse outcome)
to the value returned / error thrown, together with the trace of client
events (one network request, and a body parse when `res.json()` runs).
-/

/-- `interface User` of `types.ts`: `{ id, name, email }`. -/
structure UserRec where
  id : Int
  name : String
  email : String
deriving DecidableEq, Repr

/-- `interface UserCreate` of `types.ts`: the draft `{ name, email }`. -/
structure UserDraft where
  name : String
  email : String
deriving DecidableEq, Repr

/-- The five state hooks of `App` / `Index`:
`users`, `formData`, `editingId`, `loading`, `error`. -/
structure AppState where
  users : List UserRec
  formData : UserDraft
  editingId : Option Int
  loading : Bool
  error : Option String
deriving DecidableEq, Repr

/-- A network request issued through the API client namespace. -/
inductive NetReq where
  | list
  | create (d : UserDraft)
  | update (id : Int) (d : UserDraft)
  | delete (id : Int)
deriving DecidableEq, Repr

/-- A primitive effect executed by a handler, in program order:
the five `setXxx` state-setter calls, an `await userApi.…` network
request, or a native `Alert.alert` (mobile only; no state change). -/
inductive Eff where
  | setUsers (l : List UserRec)
  | setFormData (d : UserDraft)
  | setEditingId (i : Option Int)
  | setLoading (b : Bool)
  | setError (e : Option String)
  | net (r : NetReq)
  | alert (title msg : String)
deriving DecidableEq, Repr

/-- Execute one effect on the component state.  State setters replace the
corresponding hook value; network requests and alerts do not touch the
component state. -/
def applyEff (s : AppState) : Eff → AppState
  | .setUsers l => { s with users := l }
  | .setFormData d => { s with formData := d }
  | .setEditingId i => { s with editingId := i }
  | .setLoading b => { s with loading := b }
  | .setError e => { s with error := e }
  | .net _ => s
  | .alert _ _ => s

/-- State after a handler's effect list has run to completion. -/
def runEffs (s : AppState) (es : List Eff) : AppState :=
  es.foldl applyEff s

/-- The network requests a handler issues, in order. -/
def requests (es : List Eff) : List NetReq :=
  es.filterMap fun e =>
    match e with
    | .net r => some r
    | _ => none

/-- Whether an effect sets the busy flag. -/
def isEnterBusy : Eff → Bool
  | .setLoading true => true
  | _ => false

/-- Whether the handler ever transitions the controller into Busy. -/
def entersBusy (es : List Eff) : Bool :=
  es.any isEnterBusy

/-- Outcome of an awaited API-client call as the controller sees it:
either the resolved value or the message of the thrown `Error`. -/
def ApiOutcome (α : Type) := Except String α

/-- Drop leading whitespace characters from a character list. -/
def dropLeadingWs : List Char → List Char
  | [] => []
  | c :: cs => if c.isWhitespace then dropLeadingWs cs else c :: cs

/-- JavaScript's `String.prototype.trim()`: remove whitespace from both
ends of the string.  (Defined over the character list so that it is
kernel-computable; `String.trim` of the core library is the same
function but does not reduce in the kernel.) -/
def jsTrim (s : String) : String :=
  ⟨(dropLeadingWs (dropLeadingWs s.data).reverse).reverse⟩

/-- `loadUsers` of `App.tsx` (web): set loading, clear error, await
`getUsers`; on success store the data, on failure store the message;
finally clear loading. -/
def loadUsersW (rl : ApiOutcome (List UserRec)) : List Eff :=
  [.setLoading true, .setError none, .net .list] ++
  (match rl with
   | .ok data => [.setUsers data]
   | .error msg => [.setError (some msg)]) ++
  [.setLoading false]

/-- `loadUsers` of `index.tsx` (mobile): same as the web version except
that a failure additionally shows a native alert. -/
def loadUsersM (rl : ApiOutcome (List UserRec)) : List Eff :=
  [.setLoading true, .setError none, .net .list] ++
  (match rl with
   | .ok data => [.setUsers data]
   | .error msg => [.setError (some msg), .alert "Error" msg]) ++
  [.setLoading false]

/-- `handleCreate` of `App.tsx` (web): no validation; set loading, clear
error, await `createUser(formData)`; on success reset the form and chain
`loadUsers`; on failure set the error; finally clear loading. -/
def handleCreateW (s : AppState) (rc : ApiOutcome UserRec)
    (rl : ApiOutcome (List UserRec)) : List Eff :=
  [.setLoading true, .setError none, .net (.create s.formData)] ++
  (match rc with
   | .ok _ => [.setFormData ⟨"", ""⟩] ++ loadUsersW rl
   | .error msg => [.setError (some msg)]) ++
  [.setLoading false]

/-- `handleCreate` of `index.tsx` (mobile): first the validation gate —
if `formData.name.trim()` or `formData.email.trim()` is empty, show a
native validation alert and return; otherwise as on the web, with an
extra alert on failure. -/
def handleCreateM (s : AppState) (rc : ApiOutcome UserRec)
    (rl : ApiOutcome (List UserRec)) : List Eff :=
  if jsTrim s.formData.name = "" ∨ jsTrim s.formData.email = "" then
    [.alert "Validation Error" "Name and email are required"]
  else
    [.setLoading true, .setError none, .net (.create s.formData)] ++
    (match rc with
     | .ok _ => [.setFormData ⟨"", ""⟩] ++ loadUsersM rl
     | .error msg => [.setError (some msg), .alert "Error" msg]) ++
    [.setLoading false]

/-- The JavaScript truthiness test `editingId ?` / `!editingId` on a
`number | null`: `null` and `0` are falsy. -/
def isTruthyId : Option Int → Bool
  | none => false
  | some i => !(i == 0)

/-- `handleUpdate` of `App.tsx` (web): `if (!editingId) return;` guard,
then set loading, clear error, await `updateUser(editingId, formData)`;
on success clear `editingId`, reset the form and chain `loadUsers`; on
failure set the error; finally clear loading. -/
def handleUpdateW (s : AppState) (ru : ApiOutcome UserRec)
    (rl : ApiOutcome (List UserRec)) : List Eff :=
  match s.editingId with
  | none => []
  | some i =>
    if i == 0 then []
    else
      [.setLoading true, .setError none, .net (.update i s.formData)] ++
      (match ru with
       | .ok _ => [.setEditingId none, .setFormData ⟨"", ""⟩] ++ loadUsersW rl
       | .error msg => [.setError (some msg)]) ++
      [.setLoading false]

/-- `handleUpdate` of `index.tsx` (mobile): the same `!editingId` guard,
then the validation gate (alert and return on a trimmed-empty field),
then the update with a chained mobile reload and an alert on failure. -/
def handleUpdateM (s : AppState) (ru : ApiOutcome UserRec)
    (rl : ApiOutcome (List UserRec)) : List Eff :=
  match s.editingId with
  | none => []
  | some i =>
    if i == 0 then []
    else if jsTrim s.formData.name = "" ∨ jsTrim s.formData.email = "" then
      [.alert "Validation Error" "Name and email are required"]
    else
      [.setLoading true, .setError none, .net (.update i s.formData)] ++
      (match ru with
       | .ok _ => [.setEditingId none, .setFormData ⟨"", ""⟩] ++ loadUsersM rl
       | .error msg => [.setError (some msg), .alert "Error" msg]) ++
      [.setLoading false]

/-- `handleDelete` of `App.tsx` (web): set loading, clear error, await
`deleteUser(id)`; on success chain `loadUsers`; on failure set the
error; finally clear loading.  No confirmation on the web. -/
def handleDeleteW (id : Int) (rd : ApiOutcome Unit)
    (rl : ApiOutcome (List UserRec)) : List Eff :=
  [.setLoading true, .setError none, .net (.delete id)] ++
  (match rd with
   | .ok _ => loadUsersW rl
   | .error msg => [.setError (some msg)]) ++
  [.setLoading false]

/-- `handleDelete` of `index.tsx` (mobile): a native confirmation dialog
first; if the user cancels nothing runs, if they confirm the same
delete-then-reload sequence runs, with an alert on failure. -/
def handleDeleteM (id : Int) (confirmed : Bool) (rd : ApiOutcome Unit)
    (rl : ApiOutcome (List UserRec)) : List Eff :=
  if confirmed then
    [.setLoading true, .setError none, .net (.delete id)] ++
    (match rd with
     | .ok _ => loadUsersM rl
     | .error msg => [.setError (some msg), .alert "Error" msg]) ++
    [.setLoading false]
  else []

/-- `startEdit` of `App.tsx` (web): set `editingId` to the record's id
and fill the form with its current values.  Non-network. -/
def startEditW (u : UserRec) : List Eff :=
  [.setEditingId (some u.id), .setFormData ⟨u.name, u.email⟩]

/-- `startEdit` of `index.tsx` (mobile): identical to the web version. -/
def startEditM (u : UserRec) : List Eff :=
  [.setEditingId (some u.id), .setFormData ⟨u.name, u.email⟩]

/-- `cancelEdit` of `App.tsx` (web): clear `editingId` and the form. -/
def cancelEditW : List Eff :=
  [.setEditingId none, .setFormData ⟨"", ""⟩]

/-- `cancelEdit` of `index.tsx` (mobile): identical to the web version. -/
def cancelEditM : List Eff :=
  [.setEditingId none, .setFormData ⟨"", ""⟩]

/-- A user intent forwarded by the presentation layer to the controller. -/
inductive Intent where
  | startLoad
  | submit
  | doDelete (id : Int)
  | doStartEdit (u : UserRec)
  | doCancelEdit
deriving DecidableEq, Repr

/-- The Resource Client outcomes an intent's handler may observe, plus
the answer to the mobile delete-confirmation dialog. -/
structure Outcomes where
  listRes : ApiOutcome (List UserRec)
  createRes : ApiOutcome UserRec
  updateRes : ApiOutcome UserRec
  deleteRes : ApiOutcome Unit
  reloadRes : ApiOutcome (List UserRec)
  deleteConfirmed : Bool

/-- One controller step of the web front end: dispatch the intent the way
`App.tsx` wires it (`onSubmit={editingId ? handleUpdate : handleCreate}`,
`onDelete={handleDelete}`, `onEdit={startEdit}`, `onCancel={cancelEdit}`). -/
def webStep (s : AppState) (i : Intent) (o : Outcomes) : List Eff :=
  match i with
  | .startLoad => loadUsersW o.listRes
  | .submit =>
    if isTruthyId s.editingId then handleUpdateW s o.updateRes o.reloadRes
    else handleCreateW s o.createRes o.reloadRes
  | .doDelete id => handleDeleteW id o.deleteRes o.reloadRes
  | .doStartEdit u => startEditW u
  | .doCancelEdit => cancelEditW

/-- One controller step of the mobile front end, wired as `index.tsx`
does (same truthiness dispatch; delete behind the confirmation dialog). -/
def mobileStep (s : AppState) (i : Intent) (o : Outcomes) : List Eff :=
  match i with
  | .startLoad => loadUsersM o.listRes
  | .submit =>
    if isTruthyId s.editingId then handleUpdateM s o.updateRes o.reloadRes
    else handleCreateM s o.createRes o.reloadRes
  | .doDelete id => handleDeleteM id o.deleteConfirmed o.deleteRes o.reloadRes
  | .doStartEdit u => startEditM u
  | .doCancelEdit => cancelEditM

/-!
HTTP-level model of the two API clients.  A `fetch` response is its
success status (`res.ok`, true exactly on 2xx) together with the outcome
of `res.json()`: the parsed value, or the message of the rejection when
the body is not valid JSON.  Each operation records its trace of client
events: the single network request, and a body parse whenever
`res.json()` actually runs.
-/

/-- A `fetch` response: `ok` mirrors `res.ok`; `body` the `res.json()`
outcome for a body expected to parse to `α`. -/
structure HttpResp (α : Type) where
  ok : Bool
  body : Except String α

/-- An observable action of an API-client operation. -/
inductive ClientEvent where
  | request
  | parseBody
deriving DecidableEq, Repr

/-- Whether a client event is the network request. -/
def isRequest : ClientEvent → Bool
  | .request => true
  | .parseBody => false

/-- `getUsers` of `frontend/src/api/users.ts`: one fetch; if `!res.ok`
throw `"Failed to fetch users"` without touching the body; otherwise
return `res.json()`. -/
def getUsersW (r : HttpResp (List UserRec)) :
    Except String (List UserRec) × List ClientEvent :=
  if !r.ok then (.error "Failed to fetch users", [.request])
  else (r.body, [.request, .parseBody])

/-- `createUser` of `frontend/src/api/users.ts`: one fetch; then
`const data = await res.json()` runs BEFORE the `res.ok` check, so the
body is always parsed (and an unparsable body's rejection is what the
caller sees); only then `if (!res.ok) throw new Error("Failed to create
user")`, else return `data`. -/
def createUserW (r : HttpResp UserRec) :
    Except String UserRec × List ClientEvent :=
  match r.body with
  | .error e => (.error e, [.request, .parseBody])
  | .ok data =>
    if !r.ok then (.error "Failed to create user", [.request, .parseBody])
    else (.ok data, [.request, .parseBody])

/-- `updateUser` of `frontend/src/api/users.ts`: one fetch; `!res.ok`
throws `"Failed to update user"` without parsing; else `res.json()`. -/
def updateUserW (r : HttpResp UserRec) :
    Except String UserRec × List ClientEvent :=
  if !r.ok then (.error "Failed to update user", [.request])
  else (r.body, [.request, .parseBody])

/-- `deleteUser` of `frontend/src/api/users.ts`: one fetch; `!res.ok`
throws `"Failed to delete user"`; no body is ever parsed (204). -/
def deleteUserW (r : HttpResp Unit) :
    Except String Unit × List ClientEvent :=
  if !r.ok then (.error "Failed to delete user", [.request])
  else (.ok (), [.request])

/-- `getUsers` of `mobile/src/api/users.ts`: same shape as the web
version (status check before any parse). -/
def getUsersM (r : HttpResp (List UserRec)) :
    Except String (List UserRec) × List ClientEvent :=
  if !r.ok then (.error "Failed to fetch users", [.request])
  else (r.body, [.request, .parseBody])

/-- `createUser` of `mobile/src/api/users.ts`: unlike the web version,
the `res.ok` check comes FIRST; on failure the body is not parsed. -/
def createUserM (r : HttpResp UserRec) :
    Except String UserRec × List ClientEvent :=
  if !r.ok then (.error "Failed to create user", [.request])
  else (r.body, [.request, .parseBody])

/-- `updateUser` of `mobile/src/api/users.ts`: status check first. -/
def updateUserM (r : HttpResp UserRec) :
    Except String UserRec × List ClientEvent :=
  if !r.ok then (.error "Failed to update user", [.request])
  else (r.body, [.request, .parseBody])

/-- `deleteUser` of `mobile/src/api/users.ts`: status check; no parse. -/
def deleteUserM (r : HttpResp Unit) :
    Except String Unit × List ClientEvent :=
  if !r.ok then (.error "Failed to delete user", [.request])
  else (.ok (), [.request])

/-! Concrete fixtures used by witnesses and counterexamples. -/

/-- A sample record. -/
def u0 : UserRec := ⟨1, "Ada", "ada@x.com"⟩

/-- An idle state whose draft has an empty name but a non-empty email. -/
def sEmptyName : AppState := ⟨[], ⟨"", "x@x.com"⟩, none, false, none⟩

/-- An idle create-mode state with a valid draft. -/
def sIdle : AppState := ⟨[], ⟨"Ada", "ada@x.com"⟩, none, false, none⟩

/-- A busy state (an operation in flight). -/
def sBusy : AppState := ⟨[], ⟨"Ada", "ada@x.com"⟩, none, true, none⟩

/-- An update-mode state with `editingId = 0`. -/
def sEditZero : AppState := ⟨[], ⟨"Ada", "ada@x.com"⟩, some 0, false, none⟩

/-- An update-mode state with `editingId = 7` and a valid draft. -/
def sEditSeven : AppState := ⟨[u0], ⟨"Bobby", "b@x.com"⟩, some 7, false, none⟩

/-- Claim C7: for every `startLoad` (`loadUsers`) operation, on success
the Collection Cache is replaced wholesale by exactly the returned
sequence; on failure the Collection Cache is left unchanged and the
Error slot is set to the failure message; either way the controller
returns to Idle (`loading = false`).  Holds for both front ends. -/
theorem C7_startLoad_cache_and_idle (s : AppState) (L : List UserRec) (m : String) :
    runEffs s (loadUsersW (.ok L)) =
      { s with users := L, loading := false, error := none } ∧
    runEffs s (loadUsersW (.error m)) =
      { s with loading := false, error := some m } ∧
    (runEffs s (loadUsersW (.error m))).users = s.users ∧
    runEffs s (loadUsersM (.ok L)) =
      { s with users := L, loading := false, error := none } ∧
    runEffs s (loadUsersM (.error m)) =
      { s with loading := false, error := some m } ∧
    (runEffs s (loadUsersM (.error m))).users = s.users :=
  ⟨rfl, rfl, rfl, rfl, rfl, rfl⟩

/-- Claim C8: every `delete(id)` operation — whatever its outcome, the
outcome of the chained reload, or the confirmation answer on mobile, and
in particular when `id` equals the current EditTarget — leaves both
EditTarget (`editingId`) and Draft (`formData`) unchanged: deleting the
record referenced by EditTarget does not clear edit mode. -/
theorem C8_delete_preserves_edit_state (s : AppState) (id : Int) (c : Bool)
    (rd : ApiOutcome Unit) (rl : ApiOutcome (List UserRec)) :
    (runEffs s (handleDeleteW id rd rl)).editingId = s.editingId ∧
    (runEffs s (handleDeleteW id rd rl)).formData = s.formData ∧
    (runEffs s (handleDeleteM id c rd rl)).editingId = s.editingId ∧
    (runEffs s (handleDeleteM id c rd rl)).formData = s.formData := by
  cases rd <;> cases rl <;> cases c <;> exact ⟨rfl, rfl, rfl, rfl⟩

/-- Claim C9: `startEdit(record)` sets EditTarget to `record.id` and the
Draft to a copy `{name, email}` of the record's fields, and `cancelEdit`
unconditionally sets EditTarget to `None` and the Draft to empty
strings; neither operation issues a network request, and neither changes
the Collection Cache (visible in the state equalities: `users` is
untouched).  Holds in both front ends. -/
theorem C9_startEdit_cancelEdit (s : AppState) (u : UserRec) :
    runEffs s (startEditW u) =
      { s with editingId := some u.id, formData := ⟨u.name, u.email⟩ } ∧
    runEffs s (startEditM u) =
      { s with editingId := some u.id, formData := ⟨u.name, u.email⟩ } ∧
    runEffs s cancelEditW =
      { s with editingId := none, formData := ⟨"", ""⟩ } ∧
    runEffs s cancelEditM =
      { s with editingId := none, formData := ⟨"", ""⟩ } ∧
    requests (startEditW u) = [] ∧ requests (startEditM u) = [] ∧
    requests cancelEditW = [] ∧ requests cancelEditM = [] :=
  ⟨rfl, rfl, rfl, rfl, rfl, rfl, rfl, rfl⟩

/-- Claim C10: when submit is dispatched to the update handler while
`editingId` is `null` — or equals `0`, because the `if (!editingId)`
guard tests JavaScript truthiness rather than non-null — the handler
returns immediately as a silent no-op: the effect list is empty, so no
network request is issued and all five state components are unchanged.
Holds in both front ends. -/
theorem C10_update_guard_silent_noop (s : AppState) (ru : ApiOutcome UserRec)
    (rl : ApiOutcome (List UserRec))
    (h : s.editingId = none ∨ s.editingId = some 0) :
    handleUpdateW s ru rl = [] ∧ handleUpdateM s ru rl = [] ∧
    runEffs s (handleUpdateW s ru rl) = s ∧
    runEffs s (handleUpdateM s ru rl) = s ∧
    requests (handleUpdateW s ru rl) = [] ∧
    requests (handleUpdateM s ru rl) = [] := by
  rcases h with h | h <;>
    simp [handleUpdateW, handleUpdateM, h, runEffs, applyEff, requests]

/-- One concrete outcome environment: every call succeeds, the reload
returns `[u0]`, and the mobile delete dialog is confirmed. -/
def oAll : Outcomes := ⟨.ok [u0], .ok u0, .ok u0, .ok (), .ok [u0], true⟩

/-- On an invalid draft (a trimmed-empty field) the mobile update
handler either no-ops at the `!editingId` guard or stops at the
validation gate with only the native alert. -/
theorem handleUpdateM_invalid_draft (s : AppState) (ru : ApiOutcome UserRec)
    (rl : ApiOutcome (List UserRec))
    (h : jsTrim s.formData.name = "" ∨ jsTrim s.formData.email = "") :
    handleUpdateM s ru rl = [] ∨
    handleUpdateM s ru rl =
      [.alert "Validation Error" "Name and email are required"] := by
  obtain ⟨us, fd, eid, ld, er⟩ := s
  cases eid with
  | none => exact Or.inl rfl
  | some i =>
    by_cases hi : i = 0
    · subst hi
      exact Or.inl rfl
    · right
      have hi' : (i == 0) = false := by simp [hi]
      simp only [handleUpdateM, hi', Bool.false_eq_true, if_false]
      exact if_pos h

/-- Counterexample to claim C1 as stated.  At the concrete create-mode
state `sEmptyName` (trimmed-empty name, non-empty email): the WEB
controller's create handler has no validation gate at all — it enters
Busy and issues the create network request followed by the chained
reload; and the MOBILE controller, which does gate, leaves the state
completely unchanged — in particular the Error slot is NOT set to a
validation message (the message appears only in a native alert). -/
theorem C1_refutation :
    jsTrim sEmptyName.formData.name = "" ∧
    requests (handleCreateW sEmptyName (.ok u0) (.ok [u0])) =
      [.create ⟨"", "x@x.com"⟩, .list] ∧
    entersBusy (handleCreateW sEmptyName (.ok u0) (.ok [u0])) = true ∧
    runEffs sEmptyName (handleCreateM sEmptyName (.ok u0) (.ok [u0])) =
      sEmptyName ∧
    (runEffs sEmptyName (handleCreateM sEmptyName (.ok u0) (.ok [u0]))).error =
      none :=
  ⟨rfl, rfl, rfl, rfl, rfl⟩

/-- Claim C1 as amended: only the MOBILE controller has a validation
gate.  For every submit in create or update mode whose draft has a
trimmed-empty name or email, the mobile handlers issue no network
request, never enter Busy, and leave the whole state — Collection
Cache, Draft, EditTarget, Busy flag AND Error slot — unchanged; the
validation message is surfaced only through a native alert, not the
Error slot.  The web handlers have no gate: even on such a draft the
web create handler enters Busy and issues the create request. -/
theorem C1_mobile_only_validation_gate (s : AppState)
    (rc ru : ApiOutcome UserRec) (rl : ApiOutcome (List UserRec))
    (h : jsTrim s.formData.name = "" ∨ jsTrim s.formData.email = "") :
    requests (handleCreateM s rc rl) = [] ∧
    entersBusy (handleCreateM s rc rl) = false ∧
    runEffs s (handleCreateM s rc rl) = s ∧
    requests (handleUpdateM s ru rl) = [] ∧
    entersBusy (handleUpdateM s ru rl) = false ∧
    runEffs s (handleUpdateM s ru rl) = s ∧
    (requests (handleCreateW s rc rl)).head? = some (.create s.formData) ∧
    entersBusy (handleCreateW s rc rl) = true := by
  have h2 := handleUpdateM_invalid_draft s ru rl h
  refine ⟨?_, ?_, ?_, ?_, ?_, ?_, ?_, ?_⟩
  · rw [handleCreateM.eq_def, if_pos h]
    rfl
  · rw [handleCreateM.eq_def, if_pos h]
    rfl
  · rw [handleCreateM.eq_def, if_pos h]
    rfl
  · rcases h2 with h2 | h2 <;> rw [h2] <;> rfl
  · rcases h2 with h2 | h2 <;> rw [h2] <;> rfl
  · rcases h2 with h2 | h2 <;> rw [h2] <;> rfl
  · cases rc <;> rfl
  · cases rc <;> rfl

/-- Witness for the amended C1 at the concrete state `sEmptyName`. -/
theorem C1_mobile_only_validation_gate_witness :
    (jsTrim sEmptyName.formData.name = "" ∨
      jsTrim sEmptyName.formData.email = "") ∧
    (requests (handleCreateM sEmptyName (.ok u0) (.ok [u0])) = [] ∧
     entersBusy (handleCreateM sEmptyName (.ok u0) (.ok [u0])) = false ∧
     runEffs sEmptyName (handleCreateM sEmptyName (.ok u0) (.ok [u0])) =
       sEmptyName) :=
  ⟨Or.inl rfl,
   ⟨(C1_mobile_only_validation_gate sEmptyName (.ok u0) (.ok u0) (.ok [u0])
       (Or.inl rfl)).1,
    (C1_mobile_only_validation_gate sEmptyName (.ok u0) (.ok u0) (.ok [u0])
       (Or.inl rfl)).2.1,
    (C1_mobile_only_validation_gate sEmptyName (.ok u0) (.ok u0) (.ok [u0])
       (Or.inl rfl)).2.2.1⟩⟩

/-- Counterexample to claim C2 as stated.  At the concrete busy state
`sBusy` (`loading = true`), a `startLoad` received by the web controller
is NOT a no-op: it issues the list request and changes the state; and a
`submit` received by the mobile controller while Busy likewise issues
the create request.  Neither controller consults the Busy flag. -/
theorem C2_refutation :
    sBusy.loading = true ∧
    requests (webStep sBusy .startLoad oAll) = [NetReq.list] ∧
    runEffs sBusy (webStep sBusy .startLoad oAll) ≠ sBusy ∧
    requests (mobileStep sBusy .submit oAll) =
      [NetReq.create ⟨"Ada", "ada@x.com"⟩] ++ [NetReq.list] := by
  refine ⟨rfl, rfl, ?_, by decide⟩
  decide

/-- Claim C2 as amended: the Operation Controller itself never consults
the Busy flag — a call to `startLoad`, `submit`, or `delete` received
while Busy is processed exactly as the same call received while Idle
(identical effect list, hence identical requests and state updates).
Single-flight is enforced only by the Presentation Adapter disabling the
triggering controls while Busy, not by the controller. -/
theorem C2_controller_ignores_busy_flag (s : AppState) (i : Intent)
    (o : Outcomes) (b : Bool) :
    webStep { s with loading := b } i o = webStep s i o ∧
    mobileStep { s with loading := b } i o = mobileStep s i o := by
  cases i <;> exact ⟨rfl, rfl⟩

/-- Counterexample to claim C3 as stated: from the same create-mode
state `sEmptyName` (trimmed-empty name) with the same submit intent and
the same all-success Resource Client outcomes, the web controller and
the mobile controller reach different states — the mobile validation
gate refuses the submit while the web controller performs it. -/
theorem C3_refutation :
    runEffs sEmptyName (webStep sEmptyName .submit oAll) ≠
      runEffs sEmptyName (mobileStep sEmptyName .submit oAll) := by
  decide

/-- Claim C3 as amended: the two front ends embed the same controller
function except for the mobile-only validation gate (and the mobile
delete-confirmation dialog).  For every state, intent, and Resource
Client outcome environment in which the mobile delete dialog is
confirmed and — for submit intents — the draft passes the trim
validation, the web and mobile controllers perform identical state
transitions on the five state components and issue identical network
requests. -/
theorem C3_controllers_agree_off_gate (s : AppState) (i : Intent)
    (o : Outcomes) (hc : o.deleteConfirmed = true)
    (hv : i = Intent.submit →
      jsTrim s.formData.name ≠ "" ∧ jsTrim s.formData.email ≠ "") :
    runEffs s (webStep s i o) = runEffs s (mobileStep s i o) ∧
    requests (webStep s i o) = requests (mobileStep s i o) := by
  obtain ⟨us, fd, eid, ld, er⟩ := s
  obtain ⟨ol, oc, ou, od, orl, oconf⟩ := o
  subst hc
  cases i with
  | startLoad => cases ol <;> exact ⟨rfl, rfl⟩
  | doDelete id => cases od <;> cases orl <;> exact ⟨rfl, rfl⟩
  | doStartEdit u => exact ⟨rfl, rfl⟩
  | doCancelEdit => exact ⟨rfl, rfl⟩
  | submit =>
    have hv' := hv rfl
    have hnv : ¬(jsTrim fd.name = "" ∨ jsTrim fd.email = "") := by
      have h1 := hv'.1
      have h2 := hv'.2
      simp only [UserDraft.mk.injEq] at h1 h2 ⊢
      simp [h1, h2]
    cases eid with
    | none =>
      simp only [webStep, mobileStep, isTruthyId, Bool.false_eq_true, if_false,
        handleCreateM, if_neg hnv]
      cases oc <;> cases orl <;> exact ⟨rfl, rfl⟩
    | some k =>
      by_cases hk : k = 0
      · subst hk
        simp only [webStep, mobileStep, isTruthyId, handleCreateM, if_neg hnv]
        cases oc <;> cases orl <;> exact ⟨rfl, rfl⟩
      · have hk' : (k == 0) = false := by simp [hk]
        simp only [webStep, mobileStep, isTruthyId, hk', Bool.not_false,
          if_true, handleUpdateW, handleUpdateM, Bool.false_eq_true, if_false,
          if_neg hnv]
        cases ou <;> cases orl <;> exact ⟨rfl, rfl⟩

/-- Witness for the amended C3 at the concrete state `sIdle` with a
submit intent and the all-success outcome environment. -/
theorem C3_controllers_agree_off_gate_witness :
    (oAll.deleteConfirmed = true ∧
     (Intent.submit = Intent.submit →
       jsTrim sIdle.formData.name ≠ "" ∧ jsTrim sIdle.formData.email ≠ "")) ∧
    (runEffs sIdle (webStep sIdle .submit oAll) =
       runEffs sIdle (mobileStep sIdle .submit oAll) ∧
     requests (webStep sIdle .submit oAll) =
       requests (mobileStep sIdle .submit oAll)) :=
  ⟨⟨rfl, fun _ => ⟨by decide, by decide⟩⟩,
   C3_controllers_agree_off_gate sIdle .submit oAll rfl
     (fun _ => ⟨by decide, by decide⟩)⟩

/-- Claim C4: after every successful create, update, or delete — on
either front end — the handler chains a full `list()` call within the
same logical operation (the request trace is exactly the mutation
request followed by the list request), and on reload success the
Collection Cache becomes exactly the reload's result; if the chained
reload fails, the mutation's local effects (Draft reset, and for update
EditTarget cleared) are not rolled back, the Error slot holds the reload
failure message, and the Collection Cache keeps its pre-operation value.
The hypotheses make the submit reach the network: a draft that passes
the mobile validation gate and, for update, a truthy `editingId`. -/
theorem C4_mutation_chains_full_reload (s : AppState) (u : UserRec)
    (L : List UserRec) (m : String) (id j : Int)
    (rl : ApiOutcome (List UserRec))
    (hn : jsTrim s.formData.name ≠ "") (he : jsTrim s.formData.email ≠ "")
    (hj : j ≠ 0) :
    requests (handleCreateW s (.ok u) rl) = [.create s.formData, .list] ∧
    runEffs s (handleCreateW s (.ok u) (.ok L)) =
      { s with formData := ⟨"", ""⟩, users := L, loading := false, error := none } ∧
    runEffs s (handleCreateW s (.ok u) (.error m)) =
      { s with formData := ⟨"", ""⟩, loading := false, error := some m } ∧
    requests (handleUpdateW { s with editingId := some j } (.ok u) rl) =
      [.update j s.formData, .list] ∧
    runEffs { s with editingId := some j }
        (handleUpdateW { s with editingId := some j } (.ok u) (.ok L)) =
      { s with formData := ⟨"", ""⟩, editingId := none, users := L,
               loading := false, error := none } ∧
    runEffs { s with editingId := some j }
        (handleUpdateW { s with editingId := some j } (.ok u) (.error m)) =
      { s with formData := ⟨"", ""⟩, editingId := none,
               loading := false, error := some m } ∧
    requests (handleDeleteW id (.ok ()) rl) = [.delete id, .list] ∧
    runEffs s (handleDeleteW id (.ok ()) (.ok L)) =
      { s with users := L, loading := false, error := none } ∧
    runEffs s (handleDeleteW id (.ok ()) (.error m)) =
      { s with loading := false, error := some m } ∧
    requests (handleCreateM s (.ok u) rl) = [.create s.formData, .list] ∧
    runEffs s (handleCreateM s (.ok u) (.ok L)) =
      { s with formData := ⟨"", ""⟩, users := L, loading := false, error := none } ∧
    runEffs s (handleCreateM s (.ok u) (.error m)) =
      { s with formData := ⟨"", ""⟩, loading := false, error := some m } ∧
    requests (handleUpdateM { s with editingId := some j } (.ok u) rl) =
      [.update j s.formData, .list] ∧
    runEffs { s with editingId := some j }
        (handleUpdateM { s with editingId := some j } (.ok u) (.ok L)) =
      { s with formData := ⟨"", ""⟩, editingId := none, users := L,
               loading := false, error := none } ∧
    runEffs { s with editingId := some j }
        (handleUpdateM { s with editingId := some j } (.ok u) (.error m)) =
      { s with formData := ⟨"", ""⟩, editingId := none,
               loading := false, error := some m } ∧
    requests (handleDeleteM id true (.ok ()) rl) = [.delete id, .list] ∧
    runEffs s (handleDeleteM id true (.ok ()) (.ok L)) =
      { s with users := L, loading := false, error := none } ∧
    runEffs s (handleDeleteM id true (.ok ()) (.error m)) =
      { s with loading := false, error := some m } := by
  have hv : ¬(jsTrim s.formData.name = "" ∨ jsTrim s.formData.email = "") := by
    simp [hn, he]
  have hj' : (j == 0) = false := by simp [hj]
  refine ⟨?_, rfl, rfl, ?_, ?_, ?_, ?_, rfl, rfl, ?_, ?_, ?_, ?_, ?_, ?_, ?_, rfl, rfl⟩
  · cases rl <;> rfl
  · simp only [handleUpdateW, hj', Bool.false_eq_true, if_false]
    cases rl <;> rfl
  · simp only [handleUpdateW, hj', Bool.false_eq_true, if_false]
    rfl
  · simp only [handleUpdateW, hj', Bool.false_eq_true, if_false]
    rfl
  · cases rl <;> rfl
  · rw [handleCreateM, if_neg hv]
    cases rl <;> rfl
  · rw [handleCreateM, if_neg hv]
    rfl
  · rw [handleCreateM, if_neg hv]
    rfl
  · simp only [handleUpdateM, hj', Bool.false_eq_true, if_false, if_neg hv]
    cases rl <;> rfl
  · simp only [handleUpdateM, hj', Bool.false_eq_true, if_false, if_neg hv]
    rfl
  · simp only [handleUpdateM, hj', Bool.false_eq_true, if_false, if_neg hv]
    rfl
  · cases rl <;> rfl

/-- Witness for C4 at the concrete state `sIdle` (draft
`{name:"Ada", email:"ada@x.com"}`), target id 7. -/
theorem C4_mutation_chains_full_reload_witness :
    (jsTrim sIdle.formData.name ≠ "" ∧ jsTrim sIdle.formData.email ≠ "" ∧
      (7 : Int) ≠ 0) ∧
    requests (handleCreateW sIdle (.ok u0) (.ok [u0])) =
      [.create sIdle.formData, .list] :=
  ⟨⟨by decide, by decide, by decide⟩,
   (C4_mutation_chains_full_reload sIdle u0 [u0] "boom" 1 7 (.ok [u0])
     (by decide) (by decide) (by decide)).1⟩

/-- Claim C6: a `RequestFailure` on a submit in create or update mode —
on either front end — leaves the Draft and the EditTarget after the
operation completes exactly what they were before the submit (visible in
the state equalities: `formData` and `editingId` are untouched), and
sets the Error slot to the failure message.  Hypotheses as in C4: the
submit must reach the network. -/
theorem C6_request_failure_preserves_draft (s : AppState) (m : String)
    (j : Int) (rl : ApiOutcome (List UserRec))
    (hn : jsTrim s.formData.name ≠ "") (he : jsTrim s.formData.email ≠ "")
    (hj : j ≠ 0) :
    runEffs s (handleCreateW s (.error m) rl) =
      { s with loading := false, error := some m } ∧
    runEffs s (handleCreateM s (.error m) rl) =
      { s with loading := false, error := some m } ∧
    runEffs { s with editingId := some j }
        (handleUpdateW { s with editingId := some j } (.error m) rl) =
      { s with editingId := some j, loading := false, error := some m } ∧
    runEffs { s with editingId := some j }
        (handleUpdateM { s with editingId := some j } (.error m) rl) =
      { s with editingId := some j, loading := false, error := some m } := by
  have hv : ¬(jsTrim s.formData.name = "" ∨ jsTrim s.formData.email = "") := by
    simp [hn, he]
  have hj' : (j == 0) = false := by simp [hj]
  refine ⟨rfl, ?_, ?_, ?_⟩
  · rw [handleCreateM, if_neg hv]
    rfl
  · simp only [handleUpdateW, hj', Bool.false_eq_true, if_false]
    rfl
  · simp only [handleUpdateM, hj', Bool.false_eq_true, if_false, if_neg hv]
    rfl

/-- Witness for C6 at the concrete state `sIdle`, failure message
`"Failed to create user"`, target id 7. -/
theorem C6_request_failure_preserves_draft_witness :
    (jsTrim sIdle.formData.name ≠ "" ∧ jsTrim sIdle.formData.email ≠ "" ∧
      (7 : Int) ≠ 0) ∧
    runEffs sIdle (handleCreateW sIdle (.error "Failed to create user") (.ok [u0])) =
      { sIdle with loading := false, error := some "Failed to create user" } :=
  ⟨⟨by decide, by decide, by decide⟩,
   (C6_request_failure_preserves_draft sIdle "Failed to create user" 7 (.ok [u0])
     (by decide) (by decide) (by decide)).1⟩

/-- Witness for C10 at the concrete state `sEditZero` (`editingId = 0`). -/
theorem C10_update_guard_silent_noop_witness :
    (sEditZero.editingId = none ∨ sEditZero.editingId = some 0) ∧
    (handleUpdateW sEditZero (.ok u0) (.ok [u0]) = [] ∧
     handleUpdateM sEditZero (.ok u0) (.ok [u0]) = [] ∧
     runEffs sEditZero (handleUpdateW sEditZero (.ok u0) (.ok [u0])) = sEditZero ∧
     runEffs sEditZero (handleUpdateM sEditZero (.ok u0) (.ok [u0])) = sEditZero ∧
     requests (handleUpdateW sEditZero (.ok u0) (.ok [u0])) = [] ∧
     requests (handleUpdateM sEditZero (.ok u0) (.ok [u0])) = []) :=
  ⟨Or.inr rfl,
   C10_update_guard_silent_noop sEditZero (.ok u0) (.ok [u0]) (Or.inr rfl)⟩

/-- Counterexample to claim C5 as stated.  The WEB client's `createUser`
runs `const data = await res.json()` BEFORE the `res.ok` check: on a
non-2xx response it parses the response body (the `parseBody` event is
in its trace), and when that body is not valid JSON the error it yields
is the parse rejection rather than the create Failure. -/
theorem C5_refutation :
    createUserW ⟨false, .ok u0⟩ =
      (.error "Failed to create user", [.request, .parseBody]) ∧
    createUserW ⟨false, .error "Unexpected token"⟩ =
      (.error "Unexpected token", [.request, .parseBody]) :=
  ⟨rfl, rfl⟩

/-- Claim C5 as amended: every Resource Client operation issues exactly
one network request (for every response, each operation's trace contains
exactly one `request` event); and on a non-2xx response, `list` (both
clients), `update` (both), `delete` (both) and the MOBILE `create` yield
the operation-labelled Failure without parsing the response body — but
the WEB `create` parses the response body before checking the status
(yielding the create Failure when the body parses, and the body's parse
rejection when it does not). -/
theorem C5_one_request_and_failure_mapping
    (rl : HttpResp (List UserRec)) (rc ru : HttpResp UserRec)
    (rd : HttpResp Unit) (v : UserRec)
    (hl : rl.ok = false) (hc : rc.ok = false) (hu : ru.ok = false)
    (hd : rd.ok = false) :
    getUsersW rl = (.error "Failed to fetch users", [.request]) ∧
    getUsersM rl = (.error "Failed to fetch users", [.request]) ∧
    updateUserW ru = (.error "Failed to update user", [.request]) ∧
    updateUserM ru = (.error "Failed to update user", [.request]) ∧
    deleteUserW rd = (.error "Failed to delete user", [.request]) ∧
    deleteUserM rd = (.error "Failed to delete user", [.request]) ∧
    createUserM rc = (.error "Failed to create user", [.request]) ∧
    createUserW ⟨false, .ok v⟩ =
      (.error "Failed to create user", [.request, .parseBody]) ∧
    (∀ r : HttpResp (List UserRec),
      ((getUsersW r).2.filter isRequest).length = 1 ∧
      ((getUsersM r).2.filter isRequest).length = 1) ∧
    (∀ r : HttpResp UserRec,
      ((createUserW r).2.filter isRequest).length = 1 ∧
      ((createUserM r).2.filter isRequest).length = 1 ∧
      ((updateUserW r).2.filter isRequest).length = 1 ∧
      ((updateUserM r).2.filter isRequest).length = 1) ∧
    (∀ r : HttpResp Unit,
      ((deleteUserW r).2.filter isRequest).length = 1 ∧
      ((deleteUserM r).2.filter isRequest).length = 1) := by
  refine ⟨?_, ?_, ?_, ?_, ?_, ?_, ?_, ?_, ?_, ?_, ?_⟩
  · simp [getUsersW, hl]
  · simp [getUsersM, hl]
  · simp [updateUserW, hu]
  · simp [updateUserM, hu]
  · simp [deleteUserW, hd]
  · simp [deleteUserM, hd]
  · simp [createUserM, hc]
  · rfl
  · intro r
    obtain ⟨ok, body⟩ := r
    cases ok <;> cases body <;> exact ⟨rfl, rfl⟩
  · intro r
    obtain ⟨ok, body⟩ := r
    cases ok <;> cases body <;> exact ⟨rfl, rfl, rfl, rfl⟩
  · intro r
    obtain ⟨ok, body⟩ := r
    cases ok <;> cases body <;> exact ⟨rfl, rfl⟩

/-- Witness for the amended C5 at concrete non-2xx responses. -/
theorem C5_one_request_and_failure_mapping_witness :
    ((⟨false, .ok [u0]⟩ : HttpResp (List UserRec)).ok = false ∧
     (⟨false, .ok u0⟩ : HttpResp UserRec).ok = false ∧
     (⟨false, .ok ()⟩ : HttpResp Unit).ok = false) ∧
    (getUsersW ⟨false, .ok [u0]⟩ =
      (.error "Failed to fetch users", [.request]) ∧
     getUsersM ⟨false, .ok [u0]⟩ =
      (.error "Failed to fetch users", [.request])) :=
  ⟨⟨rfl, rfl, rfl⟩,
   ⟨(C5_one_request_and_failure_mapping ⟨false, .ok [u0]⟩ ⟨false, .ok u0⟩
       ⟨false, .ok u0⟩ ⟨false, .ok ()⟩ u0 rfl rfl rfl rfl).1,
    (C5_one_request_and_failure_mapping ⟨false, .ok [u0]⟩ ⟨false, .ok u0⟩
       ⟨false, .ok u0⟩ ⟨false, .ok ()⟩ u0 rfl rfl rfl rfl).2.1⟩⟩
